import Mathlib

/-!
Shallow embedding of the paper-trading backend's ledger and execution
engine: order intake and cancellation (`src/routers/orders.py`), the
matching/netting engine (`src/matching_engine.py`), the liquidation
monitor (`src/liquidation_monitor.py`) and account creation
(`src/routers/accounts.py`).

Monetary amounts, prices and quantities are modelled as exact rationals;
integer leverage stays an integer.  The SQL store is modelled as explicit
record state: an account row is a record, the positions / orders / trades
tables are lists of row records, and each SQL `UPDATE` becomes a record
update.  Fallible endpoints return `Except`.
-/

namespace PaperTrading

/-- Order side (`orders.side`). -/
inductive Side
  | BUY
  | SELL
deriving DecidableEq, Repr

/-- Order type (`orders.order_type`). -/
inductive OrderType
  | MARKET
  | LIMIT
deriving DecidableEq, Repr

/-- Order status (`orders.status`). -/
inductive OrderStatus
  | PENDING
  | PARTIALLY_FILLED
  | FILLED
  | CANCELLED
  | REJECTED
  | EXPIRED
deriving DecidableEq, Repr

/-- Position side (`positions.position_side`). -/
inductive PosSide
  | LONG
  | SHORT
deriving DecidableEq, Repr

/-- Position status (`positions.status`). -/
inductive PosStatus
  | OPEN
  | LIQUIDATED
  | CLOSED
deriving DecidableEq, Repr

/-- Margin mode (`positions.margin_type`). -/
inductive MarginType
  | ISOLATED
  | CROSS
deriving DecidableEq, Repr

/-- Order-book side (`orderbook.side`). -/
inductive BookSide
  | BID
  | ASK
deriving DecidableEq, Repr

/-- The balance columns of a `futures.accounts` row that the engine
mutates. -/
structure Account where
  total_balance : ℚ
  available_balance : ℚ
  margin_balance : ℚ
deriving DecidableEq, Repr

/-- The ledger invariant (spec section 3 and section 8):
`total_balance == available_balance + margin_balance`. -/
def balanceInvariant (a : Account) : Prop :=
  a.total_balance = a.available_balance + a.margin_balance

/-- Account auto-created with the fixed starting balance of 100000
(orders.py lines 55-68, accounts.py lines 114-127). -/
def defaultAccount : Account :=
  { total_balance := 100000, available_balance := 100000, margin_balance := 0 }

/-- Explicit account creation with a chosen initial balance
(accounts.py lines 66-82): `total = available = balance, margin = 0`. -/
def create_account (balance : ℚ) : Account :=
  { total_balance := balance, available_balance := balance, margin_balance := 0 }

/-- A `futures.positions` row (the columns the engine reads or writes). -/
structure Position where
  position_side : PosSide
  quantity : ℚ
  entry_price : ℚ
  leverage : ℤ
  margin : ℚ
  margin_type : MarginType
  liquidation_price : Option ℚ
deriving DecidableEq, Repr

/-- A `futures.orders` row (the columns the engine reads or writes). -/
structure OrderRow where
  symbol : String
  side : Side
  order_type : OrderType
  quantity : ℚ
  price : Option ℚ
  leverage : ℤ
  position_side : PosSide
  status : OrderStatus
  executed_quantity : Option ℚ
  avg_price : Option ℚ
deriving DecidableEq, Repr

/-- The order-placement request body (`OrderCreate` in orders.py). -/
structure OrderCreate where
  symbol : String
  side : Side
  type : OrderType
  quantity : ℚ
  price : Option ℚ
  leverage : ℤ
deriving DecidableEq, Repr

/-- Rejections raised by `place_order` before any ledger mutation. -/
inductive PlaceError
  | invalidLeverage
  | invalidQuantity
  | priceRequired
  | insufficientBalance
deriving DecidableEq, Repr

/-- `required_margin = price * quantity / leverage` (orders.py line 90). -/
def required_margin (price quantity : ℚ) (leverage : ℤ) : ℚ :=
  price * quantity / (leverage : ℚ)

/-- The PENDING order row written by `place_order` (orders.py lines 112-137). -/
def pendingRow (o : OrderCreate) : OrderRow :=
  { symbol := o.symbol
    side := o.side
    order_type := o.type
    quantity := o.quantity
    price := o.price
    leverage := o.leverage
    position_side := match o.side with | .BUY => .LONG | .SELL => .SHORT
    status := .PENDING
    executed_quantity := none
    avg_price := none }

/-- Intake part of `place_order` (orders.py lines 30-138), for a request
whose account has already been resolved and verified to belong to the
caller: leverage must lie in [1,125], quantity must be positive, a LIMIT
order needs a positive price; a LIMIT order then reserves
`required_margin` by moving it from `available_balance` to
`margin_balance` (rejecting when `available_balance` is short) and the
PENDING row is written in the same transaction; a MARKET order skips the
balance check entirely.  On rejection nothing is written and no balance
moves (the transaction is rolled back). -/
def place_order (o : OrderCreate) (acct : Account) :
    Except PlaceError (Account × OrderRow) :=
  if o.leverage < 1 ∨ 125 < o.leverage then .error .invalidLeverage
  else if o.quantity ≤ 0 then .error .invalidQuantity
  else if o.type = .LIMIT ∧ (o.price.isNone ∨ o.price.getD 0 ≤ 0) then
    .error .priceRequired
  else
    match o.type, o.price with
    | .MARKET, _ => .ok (acct, pendingRow o)
    | .LIMIT, none => .error .priceRequired
    | .LIMIT, some p =>
      let m := required_margin p o.quantity o.leverage
      if acct.available_balance < m then .error .insufficientBalance
      else
        .ok ({ acct with
                available_balance := acct.available_balance - m
                margin_balance := acct.margin_balance + m },
             pendingRow o)

/-- Rejections raised by `cancel_order`. -/
inductive CancelError
  | notFound
  | wrongState
deriving DecidableEq, Repr

/-- `cancel_order` (orders.py lines 401-445), applied to the looked-up
order row and its account: only PENDING / PARTIALLY_FILLED orders are
cancellable; the row becomes CANCELLED, and for a LIMIT order the reserved
margin `price * quantity / leverage` is refunded from `margin_balance`
back to `available_balance`. -/
def cancel_order (o : OrderRow) (acct : Account) :
    Except CancelError (OrderRow × Account) :=
  if o.status ≠ .PENDING ∧ o.status ≠ .PARTIALLY_FILLED then .error .wrongState
  else
    let cancelled := { o with status := .CANCELLED }
    if o.order_type = .LIMIT then
      let refund := o.price.getD 0 * o.quantity / (o.leverage : ℚ)
      .ok (cancelled,
           { acct with
              available_balance := acct.available_balance + refund
              margin_balance := acct.margin_balance - refund })
    else .ok (cancelled, acct)

/-- Result of a market sweep (`process_market_order` return value). -/
structure FillResult where
  avg_price : ℚ
  filled_qty : ℚ
  total_cost : ℚ
deriving DecidableEq, Repr

/-- The sweep loop of `process_market_order` (matching_engine.py lines
41-57): walk the fetched levels, consuming `min(remaining, level_qty)`
per level and accumulating cost and filled quantity, stopping when the
remaining quantity is exhausted.  Returns `(total_cost, filled_qty)`. -/
def sweepLevels : List (ℚ × ℚ) → ℚ → ℚ → ℚ → ℚ × ℚ
  | [], _, total_cost, filled_qty => (total_cost, filled_qty)
  | (price, qty) :: rest, remaining, total_cost, filled_qty =>
    if remaining ≤ 0 then (total_cost, filled_qty)
    else
      let trade_qty := min remaining qty
      sweepLevels rest (remaining - trade_qty) (total_cost + price * trade_qty)
        (filled_qty + trade_qty)

/-- `process_market_order(symbol, side, quantity)` (matching_engine.py
lines 9-65).  A BUY sweeps the ASK side, a SELL sweeps the BID side; the
store query returns that side's resting levels best-first (price
ascending for asks, descending for bids) and at most 100 rows
(`LIMIT 100`), modelled by taking the first 100 entries of the
best-first-ordered side.  An empty book yields the zero-fill result;
otherwise `avg_price = total_cost / filled_qty` (0 when nothing
filled). -/
def process_market_order (asks bids : List (ℚ × ℚ)) (side : Side)
    (quantity : ℚ) : FillResult :=
  let orderbook := (match side with | .BUY => asks | .SELL => bids).take 100
  if orderbook.isEmpty then { avg_price := 0, filled_qty := 0, total_cost := 0 }
  else
    let r := sweepLevels orderbook quantity 0 0
    { avg_price := if r.2 > 0 then r.1 / r.2 else 0
      filled_qty := r.2
      total_cost := r.1 }

/-- Modelled from the claim's words for comparison with
`process_market_order`: the same sweep but over all resting levels of
the chosen side, with no 100-row cap. -/
def sweepClaimAllLevels (asks bids : List (ℚ × ℚ)) (side : Side)
    (quantity : ℚ) : FillResult :=
  let orderbook := match side with | .BUY => asks | .SELL => bids
  if orderbook.isEmpty then { avg_price := 0, filled_qty := 0, total_cost := 0 }
  else
    let r := sweepLevels orderbook quantity 0 0
    { avg_price := if r.2 > 0 then r.1 / r.2 else 0
      filled_qty := r.2
      total_cost := r.1 }

/-- The claiming query of `process_limit_orders` (matching_engine.py
lines 80-91): a row is claimed when it is a PENDING order on the traded
symbol whose limit price crosses the trade print
(`BUY AND price >= trade_price` or `SELL AND price <= trade_price`; a
row with SQL NULL price never satisfies the comparison). -/
def limitCrossed (symbol : String) (current_price : ℚ) (o : OrderRow) : Bool :=
  decide (o.symbol = symbol) && decide (o.status = OrderStatus.PENDING) &&
    match o.side, o.price with
    | _, none => false
    | .BUY, some p => decide (p ≥ current_price)
    | .SELL, some p => decide (p ≤ current_price)

/-- The per-order row update of `process_limit_orders` (matching_engine.py
lines 99-106): status FILLED, executed quantity set to the full order
quantity, average price set to the order's own limit price. -/
def fillLimitOrderRow (o : OrderRow) : OrderRow :=
  { o with
     status := .FILLED
     executed_quantity := some o.quantity
     avg_price := o.price }

/-- Effect of `process_limit_orders(trade_data)` on the orders table
(matching_engine.py lines 77-106): exactly the claimed rows are marked
filled, every other row is untouched.  The per-claimed-order
position/account settlement is `limit_settle` below. -/
def process_limit_orders (symbol : String) (current_price : ℚ)
    (orders : List OrderRow) : List OrderRow :=
  orders.map fun o =>
    if limitCrossed symbol current_price o then fillLimitOrderRow o else o

/-- `UPDATE futures.accounts SET available_balance += margin + pnl,
margin_balance -= margin, total_balance += pnl` — the netting-close
account update shared by both settlement paths (orders.py lines 257-268,
matching_engine.py lines 204-215). -/
def settleCloseAccount (a : Account) (released_margin pnl : ℚ) : Account :=
  { a with
     available_balance := a.available_balance + released_margin + pnl
     margin_balance := a.margin_balance - released_margin
     total_balance := a.total_balance + pnl }

/-- `pnl_direction = 1 if opposite_side == "LONG" else -1`
(orders.py line 201, matching_engine.py line 155), where `opposite_side`
is the side of the position being closed. -/
def pnlDirection : PosSide → ℚ
  | .LONG => 1
  | .SHORT => -1

/-- Result of splitting a fill against an existing opposing position. -/
structure CloseSplit where
  close_qty : ℚ
  released_margin : ℚ
  opp_after : Option Position
  remaining : ℚ
deriving DecidableEq, Repr

/-- The full-close / partial-close split shared by both settlement paths
(orders.py lines 203-243, matching_engine.py lines 157-197): a fill at
least as large as the position deletes it and releases its whole margin;
a smaller fill decrements quantity and margin proportionally
(`released = margin * close_qty / quantity`) and consumes the whole
fill. -/
def closeSplit (filled_qty : ℚ) (pos : Position) : CloseSplit :=
  if filled_qty ≥ pos.quantity then
    { close_qty := pos.quantity
      released_margin := pos.margin
      opp_after := none
      remaining := filled_qty - pos.quantity }
  else
    let close_ratio := filled_qty / pos.quantity
    let released := pos.margin * close_ratio
    { close_qty := filled_qty
      released_margin := released
      opp_after := some { pos with
                            quantity := pos.quantity - filled_qty
                            margin := pos.margin - released }
      remaining := 0 }

/-- The closing PnL of both settlement paths (orders.py line 246,
matching_engine.py line 200):
`(price - entry) * close_qty * pnl_direction`. -/
def rawClosePnl (price : ℚ) (pos : Position) (close_qty : ℚ) : ℚ :=
  (price - pos.entry_price) * close_qty * pnlDirection pos.position_side

/-- The isolated-margin bankruptcy clamp (orders.py lines 250-252,
MARKET path only): a loss on an ISOLATED position exceeding the released
margin is limited to exactly `-released_margin`. -/
def clampIsolated (pos : Position) (released_margin pnl : ℚ) : ℚ :=
  if pos.margin_type = MarginType.ISOLATED ∧ pnl < -released_margin then
    -released_margin
  else pnl

/-- The `ON CONFLICT ... DO UPDATE` same-side extension shared by both
settlement paths (orders.py lines 298-305, matching_engine.py lines
242-247): quantity and margin add, the entry price becomes the
quantity-weighted average, every other column (leverage, margin type,
liquidation price) keeps its prior value. -/
def extendPosition (pos : Position) (qty price margin : ℚ) : Position :=
  { pos with
     quantity := pos.quantity + qty
     margin := pos.margin + margin
     entry_price := (pos.quantity * pos.entry_price + qty * price) /
       (pos.quantity + qty) }

/-- Maintenance margin rate, fixed at 0.4% (orders.py line 277). -/
def mmr : ℚ := 0.004

/-- Liquidation price at entry (orders.py lines 281-286):
LONG `entry * (1 - 1/leverage + mmr)`,
SHORT `entry * (1 + 1/leverage - mmr)`. -/
def liquidationPrice (side : PosSide) (entry : ℚ) (leverage : ℤ) : ℚ :=
  match side with
  | .LONG => entry * (1 - 1 / (leverage : ℚ) + mmr)
  | .SHORT => entry * (1 + 1 / (leverage : ℚ) - mmr)

/-- `position_side = "LONG" if side == "BUY" else "SHORT"`
(orders.py line 272, matching_engine.py line 229). -/
def posSideOf : Side → PosSide
  | .BUY => .LONG
  | .SELL => .SHORT

/-- Net settlement outcome for one filled order: the account after the
mutation, what is left of the opposing position, the position inserted
or extended on the order's own side, and the realized PnL recorded on
the trade. -/
structure SettleOutcome where
  account : Account
  opp_after : Option Position
  new_pos : Option Position
  realized_pnl : ℚ
deriving DecidableEq, Repr

/-- Settlement of a filled MARKET order (orders.py lines 163-327), given
the sweep result, the account's opposing OPEN position on the symbol (if
any, with positive quantity) and its same-side OPEN position (if any).
Nets against the opposing position first — computing
`pnl = (avg_price - entry) * close_qty * direction`, clamping an
isolated-margin loss to the released margin (lines 250-252), releasing
margin and crediting PnL — then opens or extends the same-side position
with the residual quantity, assigning a fresh position the liquidation
price of `liquidationPrice` and debiting its margin
`avg_price * residual / leverage` from `available_balance`
(lines 318-327; a freshly inserted row carries the store's isolated
margin mode). -/
def market_settle (side : Side) (leverage : ℤ) (fill : FillResult)
    (opp same : Option Position) (acct : Account) : SettleOutcome :=
  let step1 :=
    match opp with
    | none => (acct, (none : Option Position), fill.filled_qty, (0 : ℚ))
    | some pos =>
      let s := closeSplit fill.filled_qty pos
      let current_pnl0 := rawClosePnl fill.avg_price pos s.close_qty
      let current_pnl := clampIsolated pos s.released_margin current_pnl0
      (settleCloseAccount acct s.released_margin current_pnl, s.opp_after,
        s.remaining, current_pnl)
  let acct1 := step1.1
  let opp_after := step1.2.1
  let remaining := step1.2.2.1
  let realized := step1.2.2.2
  if remaining > 0 then
    let position_side := posSideOf side
    let new_margin := fill.avg_price * remaining / (leverage : ℚ)
    let liq := liquidationPrice position_side fill.avg_price leverage
    let new_pos :=
      match same with
      | none =>
        some { position_side := position_side
               quantity := remaining
               entry_price := fill.avg_price
               leverage := leverage
               margin := new_margin
               margin_type := .ISOLATED
               liquidation_price := some liq }
      | some sp => some (extendPosition sp remaining fill.avg_price new_margin)
    let acct2 := { acct1 with
                    available_balance := acct1.available_balance - new_margin
                    margin_balance := acct1.margin_balance + new_margin }
    { account := acct2
      opp_after := opp_after
      new_pos := new_pos
      realized_pnl := realized }
  else
    { account := acct1
      opp_after := opp_after
      new_pos := none
      realized_pnl := realized }

/-- Settlement of one claimed LIMIT order (matching_engine.py lines
127-257), filling the full order quantity at the order's own limit
price.  Nets against the opposing position with the raw
`pnl = (price - entry) * close_qty * direction` — this path has no
isolated-margin clamp — then opens or extends the same-side position
with the residual.  A freshly inserted row's `liquidation_price` column
is not in the INSERT's column list, so it is stored as SQL NULL, and no
account debit accompanies the new position (the LIMIT margin was
reserved at intake). -/
def limit_settle (orderSide : Side) (orderPrice orderQty : ℚ)
    (leverage : ℤ) (opp same : Option Position) (acct : Account) :
    SettleOutcome :=
  let step1 :=
    match opp with
    | none => (acct, (none : Option Position), orderQty, (0 : ℚ))
    | some pos =>
      let s := closeSplit orderQty pos
      let current_pnl := rawClosePnl orderPrice pos s.close_qty
      (settleCloseAccount acct s.released_margin current_pnl, s.opp_after,
        s.remaining, current_pnl)
  let acct1 := step1.1
  let opp_after := step1.2.1
  let remaining := step1.2.2.1
  let realized := step1.2.2.2
  if remaining > 0 then
    let position_side := posSideOf orderSide
    let margin := orderPrice * remaining / (leverage : ℚ)
    let new_pos :=
      match same with
      | none =>
        some { position_side := position_side
               quantity := remaining
               entry_price := orderPrice
               leverage := leverage
               margin := margin
               margin_type := .ISOLATED
               liquidation_price := none }
      | some sp => some (extendPosition sp remaining orderPrice margin)
    { account := acct1
      opp_after := opp_after
      new_pos := new_pos
      realized_pnl := realized }
  else
    { account := acct1
      opp_after := opp_after
      new_pos := none
      realized_pnl := realized }

/-- A `futures.positions` row as the liquidation monitor reads it
(liquidation_monitor.py lines 45-51), keyed by row id and owning
account; `closed_at` records whether the close timestamp column has been
set. -/
structure PositionRow where
  id : Nat
  account_id : Nat
  symbol : String
  position_side : PosSide
  quantity : ℚ
  entry_price : ℚ
  liquidation_price : Option ℚ
  leverage : ℤ
  margin : ℚ
  status : PosStatus
  closed_at : Bool
deriving DecidableEq, Repr

/-- A `futures.trades` row (the columns the engine writes). -/
structure TradeRow where
  account_id : Nat
  symbol : String
  side : Side
  quantity : ℚ
  price : ℚ
  realized_pnl : ℚ
deriving DecidableEq, Repr

/-- A `futures.orderbook` row. -/
structure BookRow where
  symbol : String
  side : BookSide
  price : ℚ
  quantity : ℚ
deriving DecidableEq, Repr

/-- State the liquidation monitor reads and mutates: the positions
table, the accounts table (balances per account id), and the append-only
trades table. -/
structure LiqState where
  positions : List PositionRow
  accounts : Nat → Account
  trades : List TradeRow

/-- `get_mark_prices` (liquidation_monitor.py lines 76-96): per symbol,
the best bid is the highest BID price, the best ask the lowest ASK
price, and the mark price their midpoint; a symbol missing either side
has no mark price. -/
def get_mark_prices (book : List BookRow) (symbol : String) : Option ℚ :=
  let bid := ((book.filter fun r =>
      decide (r.symbol = symbol) && decide (r.side = BookSide.BID)).map
      (fun r => r.price)).max?
  let ask := ((book.filter fun r =>
      decide (r.symbol = symbol) && decide (r.side = BookSide.ASK)).map
      (fun r => r.price)).min?
  match bid, ask with
  | some b, some a => some ((b + a) / 2)
  | _, _ => none

/-- The breach test (liquidation_monitor.py lines 63-71): a LONG
liquidates when `mark <= liquidation_price`, a SHORT when
`mark >= liquidation_price`. -/
def shouldLiquidate (side : PosSide) (mark liq : ℚ) : Bool :=
  match side with
  | .LONG => decide (mark ≤ liq)
  | .SHORT => decide (liq ≤ mark)

/-- The row update of step 1 of `liquidate_position`
(liquidation_monitor.py lines 103-109): status LIQUIDATED, close
timestamp set. -/
def liqMark (r : PositionRow) : PositionRow :=
  { r with status := .LIQUIDATED, closed_at := true }

/-- `liquidate_position` (liquidation_monitor.py lines 98-149): mark the
position row LIQUIDATED with a close timestamp, debit the owning
account's `margin_balance` by the pledged margin and its `total_balance`
by the same full loss, and append one trade with the opposite closing
side, the position quantity, the mark price and `realized_pnl = -loss`. -/
def liquidate_position (st : LiqState) (pos : PositionRow) (mark : ℚ) :
    LiqState :=
  let loss := pos.margin
  { positions := st.positions.map fun r =>
      if r.id = pos.id then liqMark r else r
    accounts := fun i =>
      if i = pos.account_id then
        let a := st.accounts pos.account_id
        { a with
           margin_balance := a.margin_balance - pos.margin
           total_balance := a.total_balance - loss }
      else st.accounts i
    trades := st.trades ++
      [{ account_id := pos.account_id
         symbol := pos.symbol
         side := match pos.position_side with | .LONG => .SELL | .SHORT => .BUY
         quantity := pos.quantity
         price := mark
         realized_pnl := -loss }] }

/-- The scan condition of one monitor tick (liquidation_monitor.py lines
45-73): the snapshot row must be an OPEN position with a non-null
liquidation price, its symbol must have a mark price, and the breach
test must pass. -/
def liqCond (markOf : String → Option ℚ) (p : PositionRow) : Bool :=
  decide (p.status = PosStatus.OPEN) &&
    match p.liquidation_price with
    | none => false
    | some liq =>
      match markOf p.symbol with
      | none => false
      | some mark => shouldLiquidate p.position_side mark liq

/-- One tick of `check_liquidations` (liquidation_monitor.py lines
32-74): walk the snapshot of position rows and liquidate each one whose
scan condition holds, at its symbol's mark price. -/
def check_liquidations (markOf : String → Option ℚ) (st : LiqState) :
    LiqState :=
  st.positions.foldl
    (fun s p =>
      if liqCond markOf p then liquidate_position s p ((markOf p.symbol).getD 0)
      else s)
    st

/-- One-position ledger fixture used to exercise the liquidation tick. -/
def tickPositionRow : PositionRow :=
  { id := 1
    account_id := 7
    symbol := "BTCUSDT"
    position_side := .LONG
    quantity := 1
    entry_price := 50000
    liquidation_price := some 45200
    leverage := 10
    margin := 5000
    status := .OPEN
    closed_at := false }

/-- Ledger state holding just `tickPositionRow`. -/
def tickState : LiqState :=
  { positions := [tickPositionRow]
    accounts := fun _ => defaultAccount
    trades := [] }

/-- A book whose best bid and best ask are both `mark`, so the mark
price midpoint is `mark`. -/
def tickBook (mark : ℚ) : List BookRow :=
  [{ symbol := "BTCUSDT", side := .BID, price := mark, quantity := 1 },
   { symbol := "BTCUSDT", side := .ASK, price := mark, quantity := 1 }]

/-- A PENDING BUY LIMIT order at 101, used to exhibit fills at the
order's own limit price rather than the trade price. -/
def limitOrder101 : OrderRow :=
  { symbol := "BTCUSDT"
    side := .BUY
    order_type := .LIMIT
    quantity := 2
    price := some 101
    leverage := 5
    position_side := .LONG
    status := .PENDING
    executed_quantity := none
    avg_price := none }

/-- A LIMIT BUY for 1 unit at 1000 with leverage 2: reserved margin
1000*1/2 = 500. -/
def limitOrder500 : OrderCreate :=
  { symbol := "BTCUSDT"
    side := .BUY
    type := .LIMIT
    quantity := 1
    price := some 1000
    leverage := 2 }

/-! ## Helper lemmas -/

/-- The realized PnL a MARKET settlement records against an existing
opposing position is the clamped closing PnL. -/
theorem market_settle_realized (side : Side) (lev : ℤ) (fill : FillResult)
    (pos : Position) (same : Option Position) (acct : Account) :
    (market_settle side lev fill (some pos) same acct).realized_pnl =
      clampIsolated pos (closeSplit fill.filled_qty pos).released_margin
        (rawClosePnl fill.avg_price pos (closeSplit fill.filled_qty pos).close_qty) := by
  simp only [market_settle]
  split <;> rfl

/-- The realized PnL a LIMIT settlement records against an existing
opposing position is the raw closing PnL: this path has no clamp. -/
theorem limit_settle_realized (side : Side) (p q : ℚ) (lev : ℤ)
    (pos : Position) (same : Option Position) (acct : Account) :
    (limit_settle side p q lev (some pos) same acct).realized_pnl =
      rawClosePnl p pos (closeSplit q pos).close_qty := by
  simp only [limit_settle]
  split <;> rfl

theorem liqMark_id (r : PositionRow) : (liqMark r).id = r.id := rfl

theorem liqMark_idem (r : PositionRow) : liqMark (liqMark r) = liqMark r := rfl

/-- Positions-table effect of the liquidation scan fold: a row is marked
liquidated exactly when some snapshot row with its id satisfies the scan
condition. -/
theorem check_foldl_positions (markOf : String → Option ℚ) :
    ∀ (l : List PositionRow) (s : LiqState),
      (l.foldl (fun s p =>
          if liqCond markOf p then
            liquidate_position s p ((markOf p.symbol).getD 0)
          else s) s).positions =
        s.positions.map (fun r =>
          if l.any (fun q => liqCond markOf q && decide (q.id = r.id)) then
            liqMark r
          else r)
  | [], s => by
    simp
  | q :: rest, s => by
    rw [List.foldl_cons]
    by_cases hq : liqCond markOf q
    · rw [if_pos hq]
      rw [check_foldl_positions markOf rest]
      simp only [liquidate_position, List.map_map]
      refine List.map_congr_left fun r hr => ?_
      by_cases hid : q.id = r.id
      · simp only [Function.comp, hid, if_pos rfl]
        simp [List.any_cons, hq, hid, liqMark_id, liqMark_idem]
      · have hid' : ¬ (r.id = q.id) := fun h => hid h.symm
        simp only [Function.comp, if_neg hid']
        simp [List.any_cons, hq, hid]
    · rw [if_neg hq]
      rw [check_foldl_positions markOf rest]
      refine List.map_congr_left fun r hr => ?_
      simp [List.any_cons, hq]

/-- With distinct row ids, the scan-fold trigger for a snapshot row
reduces to that row's own scan condition. -/
theorem any_liqCond_of_nodup (markOf : String → Option ℚ)
    (l : List PositionRow) (hnd : (l.map (fun r => r.id)).Nodup)
    (r : PositionRow) (hr : r ∈ l) :
    (l.any fun q => liqCond markOf q && decide (q.id = r.id)) =
      liqCond markOf r := by
  rcases Bool.eq_false_or_eq_true (liqCond markOf r) with h | h
  · rw [h]
    rw [List.any_eq_true]
    exact ⟨r, hr, by simp [h]⟩
  · rw [h]
    rw [List.any_eq_false]
    intro q hql
    by_cases hid : q.id = r.id
    · have hqr : q = r := List.inj_on_of_nodup_map hnd hql hr hid
      subst hqr
      simp [h]
    · simp [hid]

/-- The sweep loop fills `min remaining (sum of level quantities)`:
greedy consumption level by level. -/
theorem sweepLevels_filled :
    ∀ (levels : List (ℚ × ℚ)) (r tc fq : ℚ), 0 ≤ r →
      (∀ l ∈ levels, 0 ≤ l.2) →
      (sweepLevels levels r tc fq).2 = fq + min r (levels.map Prod.snd).sum
  | [], r, tc, fq, hr, _ => by
    simp [sweepLevels, min_eq_right hr]
  | (p, q) :: tl, r, tc, fq, hr, hq => by
    have hq0 : 0 ≤ q := hq (p, q) (List.mem_cons_self _ _)
    have hs0 : 0 ≤ ((tl.map Prod.snd).sum) :=
      List.sum_nonneg fun x hx => by
        obtain ⟨l, hl, rfl⟩ := List.mem_map.mp hx
        exact hq l (List.mem_cons_of_mem _ hl)
    rw [sweepLevels]
    by_cases h0 : r ≤ 0
    · rw [if_pos h0]
      have hr0 : r = 0 := le_antisymm h0 hr
      subst hr0
      have : min (0 : ℚ) ((q + (tl.map Prod.snd).sum)) = 0 :=
        min_eq_left (by linarith)
      simp [this]
    · rw [if_neg h0]
      push_neg at h0
      have htle : min r q ≤ r := min_le_left _ _
      have h1 : 0 ≤ r - min r q := by linarith
      rw [sweepLevels_filled tl (r - min r q) _ _ h1
        (fun l hl => hq l (List.mem_cons_of_mem _ hl))]
      rcases le_total r q with hrq | hqr
      · rw [min_eq_left hrq]
        have : min (r - r) ((tl.map Prod.snd).sum) = 0 := by
          simp [min_eq_left hs0]
        rw [this]
        have : min r (q + (tl.map Prod.snd).sum) = r :=
          min_eq_left (by linarith)
        simp [this]
      · rw [min_eq_right hqr]
        have hmm : min (r - q) ((tl.map Prod.snd).sum) + q =
            min r (q + (tl.map Prod.snd).sum) := by
          rw [← min_add_add_right]
          congr 1 <;> ring
        simp only [List.map_cons, List.sum_cons]
        linarith [hmm]

/-! ## Claim theorems -/

/-- C1: for every account, `total_balance = available_balance +
margin_balance` holds on account creation (auto-created default account
and explicit creation) and is preserved by every committed ledger
mutation: order intake (in particular the LIMIT margin reservation),
both settlement paths (netting close, PnL credit and new-position margin
debit included), every liquidation, and every cancellation refund. -/
theorem C1_balance_invariant :
    balanceInvariant defaultAccount ∧
    (∀ b : ℚ, balanceInvariant (create_account b)) ∧
    (∀ (o : OrderCreate) (acct acct' : Account) (row : OrderRow),
       balanceInvariant acct → place_order o acct = .ok (acct', row) →
       balanceInvariant acct') ∧
    (∀ (side : Side) (lev : ℤ) (fill : FillResult) (opp same : Option Position)
       (acct : Account), balanceInvariant acct →
       balanceInvariant (market_settle side lev fill opp same acct).account) ∧
    (∀ (side : Side) (p q : ℚ) (lev : ℤ) (opp same : Option Position)
       (acct : Account), balanceInvariant acct →
       balanceInvariant (limit_settle side p q lev opp same acct).account) ∧
    (∀ (st : LiqState) (pos : PositionRow) (m : ℚ) (i : Nat),
       balanceInvariant (st.accounts i) →
       balanceInvariant ((liquidate_position st pos m).accounts i)) ∧
    (∀ (o : OrderRow) (acct : Account) (row' : OrderRow) (acct' : Account),
       balanceInvariant acct → cancel_order o acct = .ok (row', acct') →
       balanceInvariant acct') := by
  refine ⟨?_, ?_, ?_, ?_, ?_, ?_, ?_⟩
  · norm_num [balanceInvariant, defaultAccount]
  · intro b; simp [balanceInvariant, create_account]
  · intro o acct acct' row hinv h
    unfold place_order at h
    split at h
    · exact absurd h (by simp)
    split at h
    · exact absurd h (by simp)
    split at h
    · exact absurd h (by simp)
    split at h
    · simp only [Except.ok.injEq, Prod.mk.injEq] at h
      obtain ⟨h1, -⟩ := h
      exact h1 ▸ hinv
    · exact absurd h (by simp)
    · dsimp only at h
      split at h
      · exact absurd h (by simp)
      · simp only [Except.ok.injEq, Prod.mk.injEq] at h
        obtain ⟨h1, -⟩ := h
        subst h1
        simp only [balanceInvariant] at hinv ⊢
        simp [hinv]
  · intro side lev fill opp same acct hinv
    simp only [balanceInvariant] at hinv ⊢
    rcases opp with - | pos <;>
      simp only [market_settle, settleCloseAccount, closeSplit, clampIsolated,
        rawClosePnl] <;>
      split_ifs <;> simp <;> linarith
  · intro side p q lev opp same acct hinv
    simp only [balanceInvariant] at hinv ⊢
    rcases opp with - | pos <;>
      simp only [limit_settle, settleCloseAccount, closeSplit, rawClosePnl] <;>
      split_ifs <;> simp <;> linarith
  · intro st pos m i hinv
    simp only [balanceInvariant] at hinv ⊢
    simp only [liquidate_position]
    split_ifs with hi
    · subst hi; dsimp only; linarith
    · exact hinv
  · intro o acct row' acct' hinv h
    unfold cancel_order at h
    split at h
    · exact absurd h (by simp)
    · split at h <;>
        (simp only [Except.ok.injEq, Prod.mk.injEq] at h
         obtain ⟨-, h2⟩ := h
         subst h2
         simp only [balanceInvariant] at hinv ⊢
         simp [hinv]
         try ring)

/-- C1 witness: the invariant is preserved at a concrete settlement. -/
theorem C1_balance_invariant_witness :
    balanceInvariant
      (market_settle Side.BUY 10
        { avg_price := 50000, filled_qty := 1, total_cost := 50000 }
        none none defaultAccount).account :=
  C1_balance_invariant.2.2.2.1 Side.BUY 10 _ none none defaultAccount
    (by norm_num [balanceInvariant, defaultAccount])

/-- C2 counterexample: at the limit-matching entry point, a fill that
closes an ISOLATED position with released margin 100 and computed
closing PnL -150 realizes -150, not the claimed clamped -100. -/
theorem C2_counterexample :
    (limit_settle Side.SELL 100 1 1
      (some { position_side := .LONG, quantity := 1, entry_price := 250,
              leverage := 1, margin := 100, margin_type := .ISOLATED,
              liquidation_price := none }) none defaultAccount).realized_pnl
      = -150 ∧ (-150 : ℚ) ≠ -100 := by
  constructor
  · norm_num [limit_settle, closeSplit, rawClosePnl, pnlDirection,
      settleCloseAccount]
  · norm_num

/-- C2 amended: only the market-execution settlement clamps an isolated
closing loss to the released margin (then a position with margin 100 and
computed PnL -150 realizes exactly -100); the limit-matching settlement
always applies the raw closing PnL unclamped. -/
theorem C2_isolated_clamp_market_path_only :
    (∀ (side : Side) (lev : ℤ) (fill : FillResult) (pos : Position)
       (same : Option Position) (acct : Account),
       pos.margin_type = MarginType.ISOLATED →
       rawClosePnl fill.avg_price pos (closeSplit fill.filled_qty pos).close_qty
         < -(closeSplit fill.filled_qty pos).released_margin →
       (market_settle side lev fill (some pos) same acct).realized_pnl =
         -(closeSplit fill.filled_qty pos).released_margin) ∧
    (∀ (side : Side) (p q : ℚ) (lev : ℤ) (pos : Position)
       (same : Option Position) (acct : Account),
       (limit_settle side p q lev (some pos) same acct).realized_pnl =
         rawClosePnl p pos (closeSplit q pos).close_qty) := by
  constructor
  · intro side lev fill pos same acct hiso hlt
    rw [market_settle_realized]
    unfold clampIsolated
    exact if_pos ⟨hiso, hlt⟩
  · intro side p q lev pos same acct
    exact limit_settle_realized side p q lev pos same acct

/-- C2 witness: margin 100, computed PnL -150, market path realizes
exactly -100. -/
theorem C2_isolated_clamp_market_path_only_witness :
    (market_settle Side.SELL 1
        { avg_price := 100, filled_qty := 1, total_cost := 100 }
        (some { position_side := .LONG, quantity := 1, entry_price := 250,
                leverage := 1, margin := 100, margin_type := .ISOLATED,
                liquidation_price := none }) none defaultAccount).realized_pnl =
      -(closeSplit 1 { position_side := .LONG, quantity := 1,
                         entry_price := 250, leverage := 1, margin := 100,
                         margin_type := .ISOLATED,
                         liquidation_price := none }).released_margin :=
  C2_isolated_clamp_market_path_only.1 Side.SELL 1 _ _ none defaultAccount rfl
    (by norm_num [rawClosePnl, closeSplit, pnlDirection])

/-- C3 counterexample: a position opened by the limit-matching settlement
(BUY 1 at 50000, leverage 10) is stored with no liquidation price at all,
not with the claimed `entry * (1 - 1/leverage + mmr) = 45200`. -/
theorem C3_counterexample :
    ((limit_settle Side.BUY 50000 1 10 none none defaultAccount).new_pos.map
        (fun p => p.liquidation_price)) = some none ∧
    liquidationPrice PosSide.LONG 50000 10 = 45200 ∧
    (none : Option ℚ) ≠ some 45200 := by
  refine ⟨?_, ?_, by simp⟩
  · norm_num [limit_settle]
  · norm_num [liquidationPrice, mmr, posSideOf]

/-- C3 amended: only positions newly opened by the market-execution
settlement are assigned the liquidation price
`entry*(1 - 1/leverage + mmr)` (LONG) / `entry*(1 + 1/leverage - mmr)`
(SHORT) with mmr = 0.004 — in particular LONG entry 50000 at leverage 10
gets 45200; positions opened by the limit-matching settlement are stored
with no liquidation price, and a same-side extension keeps the prior
stored value on both paths. -/
theorem C3_liq_price_market_open_only :
    (∀ (side : Side) (lev : ℤ) (fill : FillResult) (acct : Account),
       0 < fill.filled_qty →
       (market_settle side lev fill none none acct).new_pos =
         some { position_side := posSideOf side
                quantity := fill.filled_qty
                entry_price := fill.avg_price
                leverage := lev
                margin := fill.avg_price * fill.filled_qty / (lev : ℚ)
                margin_type := .ISOLATED
                liquidation_price :=
                  some (liquidationPrice (posSideOf side) fill.avg_price lev) }) ∧
    (∀ (entry : ℚ) (lev : ℤ),
       liquidationPrice .LONG entry lev = entry * (1 - 1 / (lev : ℚ) + mmr) ∧
       liquidationPrice .SHORT entry lev = entry * (1 + 1 / (lev : ℚ) - mmr)) ∧
    mmr = 0.004 ∧
    liquidationPrice .LONG 50000 10 = 45200 ∧
    (∀ (side : Side) (p q : ℚ) (lev : ℤ) (acct : Account), 0 < q →
       (limit_settle side p q lev none none acct).new_pos.map
         (fun pp => pp.liquidation_price) = some none) ∧
    (∀ (side : Side) (lev : ℤ) (fill : FillResult) (sp : Position)
       (acct : Account), 0 < fill.filled_qty →
       (market_settle side lev fill none (some sp) acct).new_pos.map
         (fun pp => pp.liquidation_price) = some sp.liquidation_price) ∧
    (∀ (side : Side) (p q : ℚ) (lev : ℤ) (sp : Position) (acct : Account),
       0 < q →
       (limit_settle side p q lev none (some sp) acct).new_pos.map
         (fun pp => pp.liquidation_price) = some sp.liquidation_price) := by
  refine ⟨?_, ?_, rfl, ?_, ?_, ?_, ?_⟩
  · intro side lev fill acct hq
    simp [market_settle, hq]
  · intro entry lev; exact ⟨rfl, rfl⟩
  · norm_num [liquidationPrice, mmr]
  · intro side p q lev acct hq
    simp [limit_settle, hq]
  · intro side lev fill sp acct hq
    simp [market_settle, extendPosition, hq]
  · intro side p q lev sp acct hq
    simp [limit_settle, extendPosition, hq]

/-- C3 witness: the market path at LONG entry 50000, leverage 10, gives a
fresh position with liquidation price 45200. -/
theorem C3_liq_price_market_open_only_witness :
    (market_settle Side.BUY 10
        { avg_price := 50000, filled_qty := 1, total_cost := 50000 }
        none none defaultAccount).new_pos =
      some { position_side := posSideOf Side.BUY
             quantity := 1
             entry_price := 50000
             leverage := 10
             margin := 50000 * 1 / ((10 : ℤ) : ℚ)
             margin_type := .ISOLATED
             liquidation_price :=
               some (liquidationPrice (posSideOf Side.BUY) 50000 10) } :=
  C3_liq_price_market_open_only.1 Side.BUY 10
    { avg_price := 50000, filled_qty := 1, total_cost := 50000 }
    defaultAccount (by norm_num)

/-- C4: on each liquidation-monitor tick, every OPEN position with a
non-null liquidation price whose symbol has a mark price (bid/ask
midpoint) is liquidated exactly when `mark <= liq` (LONG) or
`mark >= liq` (SHORT); liquidation marks the row LIQUIDATED with a close
timestamp, debits the account's `margin_balance` and `total_balance` by
the full pledged margin, and appends one trade with the opposite closing
side and `realized_pnl = -margin`; a LONG with liquidation price 45200
liquidates at mark 45200 and not at 45201. -/
theorem C4_liquidation_tick :
    (∀ (markOf : String → Option ℚ) (st : LiqState),
       (st.positions.map (fun r => r.id)).Nodup →
       (check_liquidations markOf st).positions =
         st.positions.map (fun r =>
           if liqCond markOf r then liqMark r else r)) ∧
    (∀ (markOf : String → Option ℚ) (p : PositionRow),
       liqCond markOf p = true ↔
         p.status = .OPEN ∧
           ∃ liq mark, p.liquidation_price = some liq ∧
             markOf p.symbol = some mark ∧
             (p.position_side = .LONG → mark ≤ liq) ∧
             (p.position_side = .SHORT → liq ≤ mark)) ∧
    (∀ (r : PositionRow),
       (liqMark r).status = .LIQUIDATED ∧ (liqMark r).closed_at = true) ∧
    (∀ (st : LiqState) (pos : PositionRow) (mark : ℚ),
       ((liquidate_position st pos mark).accounts pos.account_id).margin_balance
           = (st.accounts pos.account_id).margin_balance - pos.margin ∧
       ((liquidate_position st pos mark).accounts pos.account_id).total_balance
           = (st.accounts pos.account_id).total_balance - pos.margin ∧
       ((liquidate_position st pos mark).accounts
           pos.account_id).available_balance
           = (st.accounts pos.account_id).available_balance ∧
       (liquidate_position st pos mark).trades =
         st.trades ++
           [{ account_id := pos.account_id
              symbol := pos.symbol
              side := match pos.position_side with
                      | .LONG => .SELL
                      | .SHORT => .BUY
              quantity := pos.quantity
              price := mark
              realized_pnl := -pos.margin }]) ∧
    (∀ (b a : ℚ) (book : List BookRow) (sym : String),
       ((book.filter fun r =>
           decide (r.symbol = sym) && decide (r.side = BookSide.BID)).map
           (fun r => r.price)).max? = some b →
       ((book.filter fun r =>
           decide (r.symbol = sym) && decide (r.side = BookSide.ASK)).map
           (fun r => r.price)).min? = some a →
       get_mark_prices book sym = some ((b + a) / 2)) ∧
    shouldLiquidate .LONG 45200 45200 = true ∧
    shouldLiquidate .LONG 45201 45200 = false ∧
    (check_liquidations (get_mark_prices (tickBook 45200)) tickState).positions
      = [liqMark tickPositionRow] ∧
    (check_liquidations (get_mark_prices (tickBook 45201)) tickState).positions
      = [tickPositionRow] := by
  refine ⟨?_, ?_, ?_, ?_, ?_, ?_, ?_, ?_, ?_⟩
  · intro markOf st hnd
    unfold check_liquidations
    rw [check_foldl_positions]
    refine List.map_congr_left fun r hr => ?_
    rw [any_liqCond_of_nodup markOf st.positions hnd r hr]
  · intro markOf p
    unfold liqCond shouldLiquidate
    rcases hlp : p.liquidation_price with - | liq
    · simp [hlp]
    · rcases hm : markOf p.symbol with - | mark
      · simp [hlp, hm]
      · rcases hside : p.position_side with - | -
        · simp [hlp, hm, hside]
        · simp [hlp, hm, hside]
  · intro r
    exact ⟨rfl, rfl⟩
  · intro st pos mark
    refine ⟨?_, ?_, ?_, ?_⟩ <;> simp [liquidate_position]
  · intro b a book sym hb ha
    simp only [get_mark_prices, hb, ha]
  · norm_num [shouldLiquidate]
  · norm_num [shouldLiquidate]
  · have hba : BookSide.ASK ≠ BookSide.BID := by decide
    have hab : BookSide.BID ≠ BookSide.ASK := by decide
    norm_num [check_liquidations, liqCond, get_mark_prices, tickBook,
      tickState, tickPositionRow, shouldLiquidate, liquidate_position, liqMark,
      List.max?, List.min?, Option.elim, max_def, min_def, List.filter_cons,
      List.filter_nil, decide_eq_true_eq, hba, hab]
  · have hba : BookSide.ASK ≠ BookSide.BID := by decide
    have hab : BookSide.BID ≠ BookSide.ASK := by decide
    norm_num [check_liquidations, liqCond, get_mark_prices, tickBook,
      tickState, tickPositionRow, shouldLiquidate, liquidate_position, liqMark,
      List.max?, List.min?, Option.elim, max_def, min_def, List.filter_cons,
      List.filter_nil, decide_eq_true_eq, hba, hab]

/-- C4 witness: the characterization applied to the concrete
one-position ledger at mark price 45200. -/
theorem C4_liquidation_tick_witness :
    (check_liquidations (get_mark_prices (tickBook 45200)) tickState).positions
      = tickState.positions.map (fun r =>
          if liqCond (get_mark_prices (tickBook 45200)) r then liqMark r
          else r) :=
  C4_liquidation_tick.1 (get_mark_prices (tickBook 45200)) tickState
    (by simp [tickState])

/-- C5 counterexample: against a book of 101 one-unit ask levels, a
MARKET BUY for 200 units fills only 100 units — the sweep reads at most
100 levels — while consuming the resting levels until filled or
exhausted (as the claim words it) would fill 101. -/
theorem C5_counterexample :
    (process_market_order (List.replicate 101 ((1 : ℚ), (1 : ℚ))) []
        Side.BUY 200).filled_qty = 100 ∧
    (sweepClaimAllLevels (List.replicate 101 ((1 : ℚ), (1 : ℚ))) []
        Side.BUY 200).filled_qty = 101 ∧
    (100 : ℚ) ≠ 101 := by
  refine ⟨?_, ?_, by norm_num⟩
  · have htake : (List.replicate 101 ((1 : ℚ), (1 : ℚ))).take 100 =
        List.replicate 100 ((1 : ℚ), (1 : ℚ)) := by
      simp
    simp only [process_market_order, htake]
    rw [if_neg (by simp)]
    rw [sweepLevels_filled _ _ _ _ (by norm_num)
      (fun l hl => by
        have := List.eq_of_mem_replicate hl
        subst this
        norm_num)]
    simp [List.map_replicate, List.sum_replicate]
    norm_num
  · simp only [sweepClaimAllLevels]
    rw [if_neg (by simp)]
    rw [sweepLevels_filled _ _ _ _ (by norm_num)
      (fun l hl => by
        have := List.eq_of_mem_replicate hl
        subst this
        norm_num)]
    simp [List.map_replicate, List.sum_replicate]
    norm_num

/-- C5 amended: the market sweep reads at most the 100 best levels of
the opposite side, consumes `min(remaining, level_qty)` per level until
the quantity is filled or the read levels are exhausted (so
`filled_qty = min(quantity, sum of the top-100 level quantities)`),
returns `avg_price = total_cost / filled_qty` (0 when nothing filled),
yields the zero-fill result on an empty book, and fills a MARKET BUY of
1 unit against asks [(100,0.5),(101,1.0)] fully at average price
100.5. -/
theorem C5_market_sweep_capped :
    (∀ (side : Side) (q : ℚ),
       process_market_order [] [] side q =
         { avg_price := 0, filled_qty := 0, total_cost := 0 }) ∧
    (∀ (asks bids : List (ℚ × ℚ)) (side : Side) (q : ℚ),
       (process_market_order asks bids side q).avg_price =
         if 0 < (process_market_order asks bids side q).filled_qty then
           (process_market_order asks bids side q).total_cost /
             (process_market_order asks bids side q).filled_qty
         else 0) ∧
    (∀ (asks bids : List (ℚ × ℚ)) (q : ℚ), 0 ≤ q →
       (∀ l ∈ asks, 0 ≤ l.2) →
       (process_market_order asks bids Side.BUY q).filled_qty =
         min q (((asks.take 100).map Prod.snd).sum)) ∧
    (∀ (asks bids : List (ℚ × ℚ)) (q : ℚ), 0 ≤ q →
       (∀ l ∈ bids, 0 ≤ l.2) →
       (process_market_order asks bids Side.SELL q).filled_qty =
         min q (((bids.take 100).map Prod.snd).sum)) ∧
    process_market_order [(100, 1/2), (101, 1)] [] Side.BUY 1 =
      { avg_price := 201/2, filled_qty := 1, total_cost := 201/2 } := by
  refine ⟨?_, ?_, ?_, ?_, ?_⟩
  · intro side q
    cases side <;> rfl
  · intro asks bids side q
    simp only [process_market_order]
    by_cases h : (List.take 100
        (match side with | Side.BUY => asks | Side.SELL => bids)).isEmpty = true
    · simp [h]
    · simp [h, gt_iff_lt]
  · intro asks bids q hq hl
    simp only [process_market_order]
    by_cases h : (List.take 100 asks).isEmpty = true
    · have hnil : asks.take 100 = [] := by simpa using h
      simp [h, hnil, min_eq_right hq]
    · have hfq := sweepLevels_filled (asks.take 100) q 0 0 hq
        (fun l hml => hl l (List.take_subset _ _ hml))
      simp [h, hfq]
  · intro asks bids q hq hl
    simp only [process_market_order]
    by_cases h : (List.take 100 bids).isEmpty = true
    · have hnil : bids.take 100 = [] := by simpa using h
      simp [h, hnil, min_eq_right hq]
    · have hfq := sweepLevels_filled (bids.take 100) q 0 0 hq
        (fun l hml => hl l (List.take_subset _ _ hml))
      simp [h, hfq]
  · norm_num [process_market_order, sweepLevels]

/-- C5 witness: the capped-sweep fill identity at the concrete book. -/
theorem C5_market_sweep_capped_witness :
    (process_market_order [(100, 1/2), (101, 1)] [] Side.BUY 1).filled_qty =
      min 1 (((([((100 : ℚ), (1 : ℚ)/2), (101, 1)]).take 100).map
        Prod.snd).sum) :=
  C5_market_sweep_capped.2.2.1 [(100, 1/2), (101, 1)] [] 1 (by norm_num)
    (by
      intro l hml
      simp only [List.mem_cons, List.not_mem_nil, or_false] at hml
      rcases hml with rfl | rfl <;> norm_num)

/-- C6: on a trade print at price `t`, limit matching settles exactly
the PENDING orders on that symbol with `(BUY and price >= t)` or
`(SELL and price <= t)`, filling each claimed order in full — status
FILLED, executed quantity equal to the full order quantity, average
price equal to the order's own limit price, never the trade price — and
leaves every other row untouched. -/
theorem C6_limit_match_full_fill :
    (∀ (symbol : String) (t : ℚ) (orders : List OrderRow),
       process_limit_orders symbol t orders =
         orders.map fun o =>
           if limitCrossed symbol t o then fillLimitOrderRow o else o) ∧
    (∀ (symbol : String) (t : ℚ) (o : OrderRow),
       limitCrossed symbol t o = true ↔
         o.symbol = symbol ∧ o.status = .PENDING ∧
           ∃ p, o.price = some p ∧
             (o.side = .BUY → t ≤ p) ∧ (o.side = .SELL → p ≤ t)) ∧
    (∀ o : OrderRow,
       (fillLimitOrderRow o).status = .FILLED ∧
       (fillLimitOrderRow o).executed_quantity = some o.quantity ∧
       (fillLimitOrderRow o).avg_price = o.price) ∧
    (limitCrossed "BTCUSDT" 100 limitOrder101 = true ∧
     (fillLimitOrderRow limitOrder101).avg_price = some 101 ∧
     (101 : ℚ) ≠ 100) := by
  refine ⟨fun _ _ _ => rfl, ?_, fun o => ⟨rfl, rfl, rfl⟩, ?_, rfl, by norm_num⟩
  · intro symbol t o
    unfold limitCrossed
    rcases hs : o.side with - | - <;> rcases hp : o.price with - | p <;>
      simp [hs, hp] <;> tauto
  · norm_num [limitCrossed, limitOrder101]

/-- C8: a MARKET order undergoes no balance check — place-order never
returns the insufficient-balance error for it and leaves the balances
untouched at intake — and after a fill the new-position margin
`avg_price * residual / leverage` is debited from `available_balance`
unconditionally, so a concrete account ends with negative
`available_balance`. -/
theorem C8_market_no_balance_check :
    (∀ (o : OrderCreate) (acct : Account), o.type = .MARKET →
       place_order o acct ≠ .error .insufficientBalance) ∧
    (∀ (o : OrderCreate) (acct acct' : Account) (row : OrderRow),
       o.type = .MARKET → place_order o acct = .ok (acct', row) →
       acct' = acct) ∧
    (∀ (side : Side) (lev : ℤ) (fill : FillResult) (acct : Account),
       0 < fill.filled_qty →
       (market_settle side lev fill none none acct).account.available_balance =
         acct.available_balance - fill.avg_price * fill.filled_qty / (lev : ℚ)) ∧
    ((market_settle Side.BUY 1
        { avg_price := 100, filled_qty := 1, total_cost := 100 }
        none none { total_balance := 50, available_balance := 50,
                    margin_balance := 0 }).account.available_balance < 0) := by
  refine ⟨?_, ?_, ?_, ?_⟩
  · intro o acct htype hcontra
    unfold place_order at hcontra
    rw [htype] at hcontra
    split at hcontra
    · simp at hcontra
    split at hcontra
    · simp at hcontra
    split at hcontra
    · simp at hcontra
    · simp at hcontra
  · intro o acct acct' row htype h
    unfold place_order at h
    rw [htype] at h
    split at h
    · exact absurd h (by simp)
    split at h
    · exact absurd h (by simp)
    split at h
    · exact absurd h (by simp)
    · simp only [Except.ok.injEq, Prod.mk.injEq] at h
      exact h.1.symm
  · intro side lev fill acct hq
    simp [market_settle, hq]
  · norm_num [market_settle]

/-- C9: when a fill of quantity q2 at price p2 extends an existing
same-side position of quantity q1 at entry p1, the stored position has
quantity q1+q2 and entry price (q1*p1 + q2*p2)/(q1+q2), at both
settlement entry points. -/
theorem C9_weighted_entry :
    (∀ (side : Side) (lev : ℤ) (fill : FillResult) (sp : Position)
       (acct : Account), 0 < fill.filled_qty →
       ((market_settle side lev fill none (some sp) acct).new_pos.map
          (fun pp => (pp.quantity, pp.entry_price))) =
         some (sp.quantity + fill.filled_qty,
           (sp.quantity * sp.entry_price + fill.filled_qty * fill.avg_price) /
             (sp.quantity + fill.filled_qty))) ∧
    (∀ (side : Side) (p q : ℚ) (lev : ℤ) (sp : Position) (acct : Account),
       0 < q →
       ((limit_settle side p q lev none (some sp) acct).new_pos.map
          (fun pp => (pp.quantity, pp.entry_price))) =
         some (sp.quantity + q,
           (sp.quantity * sp.entry_price + q * p) / (sp.quantity + q))) := by
  constructor
  · intro side lev fill sp acct hq
    simp [market_settle, extendPosition, hq]
  · intro side p q lev sp acct hq
    simp [limit_settle, extendPosition, hq]

/-- C9 witness: extending 1@100 with a fill of 1@200 gives quantity 2 at
entry (1*100 + 1*200)/(1+1). -/
theorem C9_weighted_entry_witness :
    ((market_settle Side.BUY 1
        { avg_price := 200, filled_qty := 1, total_cost := 200 }
        none
        (some { position_side := .LONG, quantity := 1, entry_price := 100,
                leverage := 1, margin := 100, margin_type := .ISOLATED,
                liquidation_price := some 99 })
        defaultAccount).new_pos.map
       (fun pp => (pp.quantity, pp.entry_price))) =
      some ((1 : ℚ) + 1, ((1 : ℚ) * 100 + 1 * 200) / (1 + 1)) :=
  C9_weighted_entry.1 Side.BUY 1
    { avg_price := 200, filled_qty := 1, total_cost := 200 }
    { position_side := .LONG, quantity := 1, entry_price := 100,
      leverage := 1, margin := 100, margin_type := .ISOLATED,
      liquidation_price := some 99 }
    defaultAccount (by norm_num)


/-- C6 witness: the orders-table effect at a concrete trade print. -/
theorem C6_limit_match_full_fill_witness :
    process_limit_orders "BTCUSDT" 100 [limitOrder101] =
      [limitOrder101].map (fun o =>
        if limitCrossed "BTCUSDT" 100 o then fillLimitOrderRow o else o) :=
  C6_limit_match_full_fill.1 "BTCUSDT" 100 [limitOrder101]

/-- C8 witness: the unconditional new-position debit at a concrete
account that cannot afford it. -/
theorem C8_market_no_balance_check_witness :
    (market_settle Side.BUY 1
        { avg_price := 100, filled_qty := 1, total_cost := 100 }
        none none { total_balance := 50, available_balance := 50,
                    margin_balance := 0 }).account.available_balance =
      50 - 100 * 1 / ((1 : ℤ) : ℚ) :=
  C8_market_no_balance_check.2.2.1 Side.BUY 1
    { avg_price := 100, filled_qty := 1, total_cost := 100 }
    { total_balance := 50, available_balance := 50, margin_balance := 0 }
    (by norm_num)

/-- C10: a LIMIT order placed and then cancelled while still PENDING
refunds exactly the margin reserved at intake
(`price*quantity/leverage`) from `margin_balance` back to
`available_balance`, restoring the account to its pre-placement
balances; concretely the margin-500 order restores exactly 500. -/
theorem C10_cancel_restores_reserved_margin :
    (∀ (o : OrderCreate) (acct acct1 : Account) (row : OrderRow),
       o.type = .LIMIT → place_order o acct = .ok (acct1, row) →
       cancel_order row acct1 = .ok ({ row with status := .CANCELLED }, acct)) ∧
    place_order limitOrder500 defaultAccount =
      .ok ({ total_balance := 100000, available_balance := 99500,
             margin_balance := 500 }, pendingRow limitOrder500) ∧
    cancel_order (pendingRow limitOrder500)
        { total_balance := 100000, available_balance := 99500,
          margin_balance := 500 } =
      .ok ({ pendingRow limitOrder500 with status := .CANCELLED },
           defaultAccount) := by
  refine ⟨?_, ?_, ?_⟩
  · intro o acct acct1 row htype h
    unfold place_order at h
    rw [htype] at h
    split at h
    · exact absurd h (by simp)
    split at h
    · exact absurd h (by simp)
    split at h
    · exact absurd h (by simp)
    split at h
    · rename_i heqt
      exact absurd heqt (by simp)
    · exact absurd h (by simp)
    · rename_i p heq
      dsimp only at h
      split at h
      · exact absurd h (by simp)
      · simp only [Except.ok.injEq, Prod.mk.injEq] at h
        obtain ⟨h1, h2⟩ := h
        subst h1
        subst h2
        unfold cancel_order
        rw [if_neg (by simp [pendingRow])]
        rw [if_pos (by simp [pendingRow, htype])]
        simp only [pendingRow, heq]
        cases acct with
        | mk t a m =>
          simp [required_margin]
  · norm_num [place_order, limitOrder500, pendingRow, required_margin,
      defaultAccount]
  · norm_num [cancel_order, limitOrder500, pendingRow, defaultAccount]

/-- C10 witness: placing the margin-500 LIMIT order on the default
account and cancelling it restores the original balances exactly. -/
theorem C10_cancel_restores_reserved_margin_witness :
    cancel_order (pendingRow limitOrder500)
        { total_balance := 100000, available_balance := 99500,
          margin_balance := 500 } =
      .ok ({ pendingRow limitOrder500 with status := .CANCELLED },
           defaultAccount) :=
  C10_cancel_restores_reserved_margin.1 limitOrder500 defaultAccount
    { total_balance := 100000, available_balance := 99500,
      margin_balance := 500 }
    (pendingRow limitOrder500) rfl
    C10_cancel_restores_reserved_margin.2.1

/-- C7: place-order rejects with an error (writing no order row and
moving no balance) exactly when quantity <= 0, or the order is LIMIT
with a missing or non-positive price, or leverage lies outside [1,125],
or the order is LIMIT and `available_balance < price*quantity/leverage`;
otherwise a LIMIT order moves exactly that required margin from
`available_balance` to `margin_balance` and writes the order PENDING in
the same transaction. -/
theorem C7_place_order_reject_iff :
    (∀ (o : OrderCreate) (acct : Account),
       (∃ e, place_order o acct = .error e) ↔
         (o.quantity ≤ 0 ∨
          (o.type = .LIMIT ∧
            (o.price = none ∨ ∃ p, o.price = some p ∧ p ≤ 0)) ∨
          o.leverage < 1 ∨ 125 < o.leverage ∨
          (o.type = .LIMIT ∧ ∃ p, o.price = some p ∧
            acct.available_balance < required_margin p o.quantity o.leverage))) ∧
    (∀ (o : OrderCreate) (acct acct' : Account) (row : OrderRow) (p : ℚ),
       o.type = .LIMIT → o.price = some p →
       place_order o acct = .ok (acct', row) →
       acct' = { total_balance := acct.total_balance
                 available_balance :=
                   acct.available_balance - required_margin p o.quantity o.leverage
                 margin_balance :=
                   acct.margin_balance + required_margin p o.quantity o.leverage } ∧
       row = pendingRow o ∧ row.status = .PENDING) := by
  constructor
  · intro o acct
    unfold place_order
    rcases htype : o.type with - | - <;>
      rcases hp : o.price with - | p <;>
        split_ifs with h1 h2 h3 <;>
          simp_all <;> try tauto
    all_goals
      by_cases hb :
        acct.available_balance < required_margin p o.quantity o.leverage
    · exact iff_of_true ⟨.insufficientBalance, by rw [if_pos hb]⟩ (by tauto)
    · exact iff_of_false (by simp [hb])
        (by push_neg; exact ⟨h2, h3, h1.1, h1.2, le_of_not_lt hb⟩)
  · intro o acct acct' row p htype hp h
    unfold place_order at h
    rw [htype, hp] at h
    split at h
    · exact absurd h (by simp)
    split at h
    · exact absurd h (by simp)
    split at h
    · exact absurd h (by simp)
    split at h
    · rename_i heqt
      exact absurd heqt (by simp)
    · exact absurd h (by simp)
    · rename_i p2 heq
      dsimp only at h
      split at h
      · exact absurd h (by simp)
      · simp only [Option.some.injEq] at heq
        subst heq
        simp only [Except.ok.injEq, Prod.mk.injEq] at h
        obtain ⟨h1, h2⟩ := h
        exact ⟨h1.symm, h2.symm, by rw [← h2]; rfl⟩

/-- C7 witness: the LIMIT margin move and PENDING write at the concrete
margin-500 order. -/
theorem C7_place_order_reject_iff_witness :
    ({ total_balance := 100000, available_balance := 99500,
       margin_balance := 500 } : Account) =
        { total_balance := defaultAccount.total_balance
          available_balance :=
            defaultAccount.available_balance -
              required_margin 1000 limitOrder500.quantity limitOrder500.leverage
          margin_balance :=
            defaultAccount.margin_balance +
              required_margin 1000 limitOrder500.quantity
                limitOrder500.leverage } ∧
      pendingRow limitOrder500 = pendingRow limitOrder500 ∧
      (pendingRow limitOrder500).status = .PENDING :=
  C7_place_order_reject_iff.2 limitOrder500 defaultAccount
    { total_balance := 100000, available_balance := 99500,
      margin_balance := 500 }
    (pendingRow limitOrder500) 1000 rfl rfl
    (by norm_num [place_order, limitOrder500, pendingRow, required_margin,
      defaultAccount])

end PaperTrading

